import Mathlib

/-!
Shallow embedding of `pcdsdevices/slits.py`: the `Slits` composite device and
its `SlitPositioner` axes.  Pure properties (`transmission`, `inserted`,
`removed`, `current_aperture`) are modelled as functions of an explicit device
state; the `move` / `remove` methods are modelled as state-free functions from
the request and an environment (the statuses the two axis moves return, and
whether the blocking wait is interrupted) to the list of issued actions and the
returned or raised result.  Numeric values are rationals; the unguarded Python
float division in `transmission` is modelled by an `Option` result that is
`none` exactly when Python would raise `ZeroDivisionError`.
-/

namespace PcdsSlits

/-- Python tuple indexing on a 2-tuple by an integer index (0 or 1). -/
def dimGet (p : ℚ × ℚ) (i : ℕ) : ℚ :=
  if i = 0 then p.1 else p.2

/-- `np.argmin` over a 2-tuple: index of the first minimal component. -/
def argminPair (c : ℚ × ℚ) : ℕ :=
  if c.1 ≤ c.2 then 0 else 1

/-- The state of a `Slits` device that its pure properties read:
the configured `nominal_aperture` and the positions (readbacks) of the
`xwidth` and `ywidth` axes. -/
structure SlitsState where
  nominal_aperture : ℚ × ℚ
  xwidth_position : ℚ
  ywidth_position : ℚ

/-- `Slits.current_aperture`: `(self.xwidth.position, self.ywidth.position)`. -/
def current_aperture (s : SlitsState) : ℚ × ℚ :=
  (s.xwidth_position, s.ywidth_position)

/-- `Slits.position`: alias for `current_aperture`. -/
def position (s : SlitsState) : ℚ × ℚ :=
  current_aperture s

/-- `Slits.inserted`:
`all([self.nominal_aperture[idx] > self.current_aperture[idx]
      for idx in range(0, 2)])`. -/
def inserted (s : SlitsState) : Bool :=
  (List.range 2).all fun idx =>
    decide (dimGet s.nominal_aperture idx > dimGet (current_aperture s) idx)

/-- `Slits.removed`: `not self.inserted`. -/
def removed (s : SlitsState) : Bool :=
  !(inserted s)

/-- `Slits.transmission`:
`min_dim = np.argmin(self.current_aperture)` then
`min(self.current_aperture[min_dim] / self.nominal_aperture[min_dim], 1.0)`.
The division is unguarded in the source; `none` models the
`ZeroDivisionError` Python raises when the nominal component is zero. -/
def transmission (s : SlitsState) : Option ℚ :=
  let min_dim := argminPair (current_aperture s)
  if dimGet s.nominal_aperture min_dim = 0 then none
  else some (min (dimGet (current_aperture s) min_dim
                  / dimGet s.nominal_aperture min_dim) 1)

/-- The `size` argument of `Slits.move`: either a single float (square
aperture shorthand) or a `(width, height)` tuple. -/
inductive SlitSize where
  | scalar (x : ℚ)
  | pair (w h : ℚ)
deriving DecidableEq

/-- Modelled from the spec: the status object an axis move returns, from the
library the repository imports (not under the repository source).  The spec
describes it as a future that resolves at some point with success or failure:
we record the resolution time, whether it succeeded, and the failure detail. -/
structure AxisStatus where
  rtime : ℕ
  ok : Bool
  detail : String
deriving DecidableEq

/-- Whether a status has resolved by time `t`. -/
def resolvedAt (st : AxisStatus) (t : ℕ) : Bool :=
  decide (st.rtime ≤ t)

/-- Modelled from the spec: the `&` combination of two statuses (the
imported status-combinator is not under the repository source).  Per the
spec it is a "joint future" that is "unresolved until both xwidth and ywidth
individually report completion", "whose success requires both to succeed
(logical AND); if either axis fails, the joint future fails, carrying the
first failure's detail". -/
def andStatus (x y : AxisStatus) : AxisStatus :=
  { rtime := max x.rtime y.rtime
    ok := x.ok && y.ok
    detail :=
      if x.ok && y.ok then ""
      else if x.ok then y.detail
      else if y.ok then x.detail
      else if x.rtime ≤ y.rtime then x.detail else y.detail }

/-- Modelled from the spec: the detail of the temporally first failure among
two statuses — what the spec says the failed joint future carries. -/
def firstFailDetail (x y : AxisStatus) : String :=
  if x.ok then y.detail
  else if y.ok then x.detail
  else if x.rtime ≤ y.rtime then x.detail else y.detail

/-- The observable actions `Slits.move` / `Slits.remove` perform, in order:
the two axis move requests (with their forwarded timeout), attaching the
`moved_cb` callback, and the `stop` calls on the axes. -/
inductive Action where
  | xmoveTo (v : ℚ) (timeout : Option ℚ)
  | ymoveTo (v : ℚ) (timeout : Option ℚ)
  | addCallback (cb : String)
  | xstop
  | ystop
deriving DecidableEq

/-- The environment a `Slits.move` call runs in: what status each axis move
returns for a given target and timeout, and whether the blocking
`status_wait` is interrupted by a `KeyboardInterrupt` (carrying the
exception's identity). -/
structure MoveEnv where
  xmove : ℚ → Option ℚ → AxisStatus
  ymove : ℚ → Option ℚ → AxisStatus
  interrupt : Option String

/-- What a `Slits.move` call hands back to the caller: either the returned
joint status, or the exception it re-raised. -/
inductive MoveOutcome where
  | returned (st : AxisStatus)
  | raised (e : String)
deriving DecidableEq

/-- The result of a `Slits.move` call: the actions it performed in order,
and either the returned joint status or the re-raised exception. -/
structure MoveResult where
  actions : List Action
  outcome : MoveOutcome
deriving DecidableEq

/-- `Slits.move(size, wait, moved_cb, timeout)`:
unpacks a tuple `size` or duplicates a scalar one, issues the two
non-blocking axis moves, combines the two statuses with `&`, attaches
`moved_cb` if given, and when `wait` is true blocks in `status_wait`;
a `KeyboardInterrupt` during that wait stops both axes and is re-raised. -/
def Slits.move (size : SlitSize) (wait : Bool) (moved_cb : Option String)
    (timeout : Option ℚ) (env : MoveEnv) : MoveResult :=
  let wh : ℚ × ℚ :=
    match size with
    | .pair w h => (w, h)
    | .scalar x => (x, x)
  let x_stat := env.xmove wh.1 timeout
  let y_stat := env.ymove wh.2 timeout
  let status := andStatus x_stat y_stat
  let acts := [Action.xmoveTo wh.1 timeout, Action.ymoveTo wh.2 timeout]
  let acts :=
    match moved_cb with
    | some cb => acts ++ [Action.addCallback cb]
    | none => acts
  if wait then
    match env.interrupt with
    | some e =>
        { actions := acts ++ [Action.xstop, Action.ystop]
          outcome := MoveOutcome.raised e }
    | none => { actions := acts, outcome := MoveOutcome.returned status }
  else
    { actions := acts, outcome := MoveOutcome.returned status }

/-- Python truthiness of the `size` argument of `Slits.remove`:
`None` and the float `0.0` are falsy; a (nonempty) tuple is always truthy. -/
def sizeTruthy : Option SlitSize → Bool
  | none => false
  | some (.scalar x) => decide (x ≠ 0)
  | some (.pair _ _) => true

/-- `Slits.remove(size=None, wait=False, timeout=None)`:
`size = size or self.nominal_aperture` then
`self.move(size, wait=wait, timeout=timeout, **kwargs)`. -/
def Slits.remove (nominal : ℚ × ℚ) (size : Option SlitSize) (wait : Bool)
    (moved_cb : Option String) (timeout : Option ℚ) (env : MoveEnv) :
    MoveResult :=
  let sz :=
    if h : sizeTruthy size then
      size.get (by cases size <;> simp_all [sizeTruthy])
    else
      SlitSize.pair nominal.1 nominal.2
  Slits.move sz wait moved_cb timeout env

/-- The subscription state of a `Slits` device: the `_has_subscribed` flag set
in `__init__`, the listeners attached to the `xwidth.readback` and
`ywidth.readback` signals (recording the `run` flag each attachment was made
with), and the externally registered callbacks (held by the generic
`Device.subscribe` machinery).  Callbacks are identified by naturals. -/
structure SubState where
  has_subscribed : Bool
  xwidth_listeners : List Bool
  ywidth_listeners : List Bool
  callbacks : List ℕ
deriving DecidableEq

/-- The subscription state right after `Slits.__init__`:
`self._has_subscribed = False`, no listeners, no callbacks. -/
def initSubState : SubState :=
  { has_subscribed := false
    xwidth_listeners := []
    ywidth_listeners := []
    callbacks := [] }

/-- `Slits.subscribe(cb, event_type, run)`: if `_has_subscribed` is still
false, attach `_aperture_changed` to both width readbacks with `run=False`
and set the flag; then delegate to the generic `Device.subscribe`, which
registers `cb`. -/
def Slits.subscribe (st : SubState) (cb : ℕ) : SubState :=
  let st1 :=
    if !st.has_subscribed then
      { st with
        xwidth_listeners := st.xwidth_listeners ++ [false]
        ywidth_listeners := st.ywidth_listeners ++ [false]
        has_subscribed := true }
    else st
  { st1 with callbacks := st1.callbacks ++ [cb] }

/-- `Slits._aperture_changed`: runs `_run_subs(sub_type=SUB_STATE, obj=self)`,
which invokes every externally registered callback once. -/
def aperture_changed (st : SubState) : List ℕ :=
  st.callbacks

/-- The callbacks invoked when the `xwidth.readback` value changes: each
attached low-level listener is `_aperture_changed`, and each invocation runs
every registered callback. -/
def xwidthChangeFires (st : SubState) : List ℕ :=
  st.xwidth_listeners.foldr (fun _ acc => aperture_changed st ++ acc) []

/-- The callbacks invoked when the `ywidth.readback` value changes. -/
def ywidthChangeFires (st : SubState) : List ℕ :=
  st.ywidth_listeners.foldr (fun _ acc => aperture_changed st ++ acc) []

/-- `SlitPositioner.setpoint` PV name:
`"{self.prefix}:{self._dirshort}_REQ"` with `_dirshort = slit_type[:4]`. -/
def setpointPV (pfx slit_type : String) : String :=
  pfx ++ ":" ++ slit_type.take 4 ++ "_REQ"

/-- `SlitPositioner.readback` PV name:
`"{self.prefix}:ACTUAL_{self._dirlong}"` with `_dirlong = slit_type`. -/
def readbackPV (pfx slit_type : String) : String :=
  pfx ++ ":ACTUAL_" ++ slit_type

/-- A concrete quiet environment for evaluating calls: both axis moves
report immediate success and no interrupt occurs. -/
def quietEnv : MoveEnv :=
  { xmove := fun _ _ => ⟨0, true, ""⟩
    ymove := fun _ _ => ⟨0, true, ""⟩
    interrupt := none }

/-- C2: for every nominal aperture `(nw, nh)` and current aperture `(cw, ch)`
with `cw, ch ≥ 0`, `inserted` is true iff `cw < nw` and `ch < nh`, and
`removed` is true iff `inserted` is false. -/
theorem inserted_removed_spec (s : SlitsState)
    (hw : 0 ≤ s.xwidth_position) (hh : 0 ≤ s.ywidth_position) :
    (inserted s = true ↔
      (s.xwidth_position < s.nominal_aperture.1 ∧
       s.ywidth_position < s.nominal_aperture.2)) ∧
    (removed s = true ↔ ¬ inserted s = true) := by
  constructor
  · simp [inserted, List.range_succ, dimGet, current_aperture]
  · simp [removed]

/-- Witness for `inserted_removed_spec` at nominal `(5, 5)`, current `(2, 3)`. -/
theorem inserted_removed_spec_witness :
    (0:ℚ) ≤ 2 ∧ (0:ℚ) ≤ 3 ∧
    ((inserted ⟨(5, 5), 2, 3⟩ = true ↔ ((2:ℚ) < 5 ∧ (3:ℚ) < 5)) ∧
     (removed ⟨(5, 5), 2, 3⟩ = true ↔ ¬ inserted ⟨(5, 5), 2, 3⟩ = true)) :=
  ⟨by norm_num, by norm_num,
   inserted_removed_spec ⟨(5, 5), 2, 3⟩ (by norm_num) (by norm_num)⟩

/-- C1: for every current aperture and nominal aperture with all components
positive, `transmission` returns `min(C[i]/N[i], 1.0)` where `i` is the index
of the smaller component of the current aperture (argmin over the current
aperture), and the value lies in `[0, 1]` even when `C[i] > N[i]`. -/
theorem transmission_spec (s : SlitsState)
    (hc1 : 0 < (current_aperture s).1) (hc2 : 0 < (current_aperture s).2)
    (hn1 : 0 < s.nominal_aperture.1) (hn2 : 0 < s.nominal_aperture.2) :
    ∃ q, transmission s = some q ∧
      q = min (dimGet (current_aperture s) (argminPair (current_aperture s))
               / dimGet s.nominal_aperture (argminPair (current_aperture s))) 1 ∧
      0 ≤ q ∧ q ≤ 1 := by
  have hN : 0 < dimGet s.nominal_aperture (argminPair (current_aperture s)) := by
    by_cases h : (current_aperture s).1 ≤ (current_aperture s).2 <;>
      simp [argminPair, dimGet, h, hn1, hn2]
  have hC : 0 < dimGet (current_aperture s) (argminPair (current_aperture s)) := by
    by_cases h : (current_aperture s).1 ≤ (current_aperture s).2 <;>
      simp [argminPair, dimGet, h, hc1, hc2]
  refine ⟨min (dimGet (current_aperture s) (argminPair (current_aperture s))
              / dimGet s.nominal_aperture (argminPair (current_aperture s))) 1,
          ?_, rfl, ?_, min_le_right _ _⟩
  · simp only [transmission]
    rw [if_neg hN.ne']
  · exact le_min (div_nonneg hC.le hN.le) zero_le_one

/-- Witness for `transmission_spec` at nominal `(5, 5)`, current `(2, 2)`:
the transmission is `2/5`. -/
theorem transmission_spec_witness :
    ∃ q, transmission ⟨(5, 5), 2, 2⟩ = some q ∧
      q = min (dimGet (current_aperture ⟨(5, 5), 2, 2⟩)
                 (argminPair (current_aperture ⟨(5, 5), 2, 2⟩))
               / dimGet (5, 5)
                 (argminPair (current_aperture ⟨(5, 5), 2, 2⟩))) 1 ∧
      0 ≤ q ∧ q ≤ 1 :=
  transmission_spec ⟨(5, 5), 2, 2⟩ (by norm_num [current_aperture])
    (by norm_num [current_aperture]) (by norm_num) (by norm_num)

/-- C10: the division in `transmission` is unguarded — when the nominal
component at the argmin index of the current aperture is zero, the property
raises `ZeroDivisionError` (modelled as `none`) instead of returning a value. -/
theorem transmission_div_by_zero (s : SlitsState)
    (h : dimGet s.nominal_aperture (argminPair (current_aperture s)) = 0) :
    transmission s = none := by
  simp [transmission, h]

/-- Witness for `transmission_div_by_zero`: nominal `(0, 5)`, current `(1, 2)`. -/
theorem transmission_div_by_zero_witness :
    transmission ⟨(0, 5), 1, 2⟩ = none :=
  transmission_div_by_zero ⟨(0, 5), 1, 2⟩ (by decide)

/-- C3: `Slits.move((w, h), wait=False)` returns the AND-combination of the
xwidth and ywidth move statuses: it is resolved at a time exactly when both
constituent statuses are resolved (resolving only one does not resolve it),
it succeeds exactly when both succeed, and if either axis fails it fails
carrying the first failure's detail. -/
theorem move_joint_status (w h : ℚ) (moved_cb : Option String)
    (timeout : Option ℚ) (env : MoveEnv) :
    ∃ st,
      (Slits.move (.pair w h) false moved_cb timeout env).outcome
        = MoveOutcome.returned st ∧
      st = andStatus (env.xmove w timeout) (env.ymove h timeout) ∧
      (∀ t, resolvedAt st t
        = (resolvedAt (env.xmove w timeout) t
            && resolvedAt (env.ymove h timeout) t)) ∧
      (st.ok = true ↔
        (env.xmove w timeout).ok = true ∧ (env.ymove h timeout).ok = true) ∧
      ((env.xmove w timeout).ok = false ∨ (env.ymove h timeout).ok = false →
        st.ok = false ∧
        st.detail = firstFailDetail (env.xmove w timeout) (env.ymove h timeout)) := by
  refine ⟨andStatus (env.xmove w timeout) (env.ymove h timeout), ?_, rfl, ?_, ?_, ?_⟩
  · cases moved_cb <;> simp [Slits.move]
  · intro t
    simp [resolvedAt, andStatus, max_le_iff, Bool.and_comm]
  · simp [andStatus]
  · intro hfail
    constructor
    · rcases hfail with hx | hy
      · simp [andStatus, hx]
      · simp [andStatus, hy]
    · rcases hfail with hx | hy
      · simp [andStatus, firstFailDetail, hx]
      · simp [andStatus, firstFailDetail, hy]

/-- Witness for `move_joint_status`: a concrete environment where the x axis
fails at time 3 and the y axis succeeds at time 1. -/
theorem move_joint_status_witness :
    ∃ st,
      (Slits.move (.pair 2 3) false none none
          ⟨fun _ _ => ⟨3, false, "x timed out"⟩,
           fun _ _ => ⟨1, true, ""⟩, none⟩).outcome
        = MoveOutcome.returned st ∧
      st = andStatus ⟨3, false, "x timed out"⟩ ⟨1, true, ""⟩ ∧
      (∀ t, resolvedAt st t
        = (resolvedAt (⟨3, false, "x timed out"⟩ : AxisStatus) t
            && resolvedAt (⟨1, true, ""⟩ : AxisStatus) t)) ∧
      (st.ok = true ↔
        (⟨3, false, "x timed out"⟩ : AxisStatus).ok = true ∧
        (⟨1, true, ""⟩ : AxisStatus).ok = true) ∧
      ((⟨3, false, "x timed out"⟩ : AxisStatus).ok = false ∨
        (⟨1, true, ""⟩ : AxisStatus).ok = false →
        st.ok = false ∧
        st.detail = firstFailDetail ⟨3, false, "x timed out"⟩ ⟨1, true, ""⟩) :=
  move_joint_status 2 3 none none
    ⟨fun _ _ => ⟨3, false, "x timed out"⟩, fun _ _ => ⟨1, true, ""⟩, none⟩

/-- C4: a blocking `Slits.move` interrupted mid-wait by `KeyboardInterrupt`
performs exactly the actions of the non-blocking call followed by `stop` on
the xwidth axis and then the ywidth axis, and re-raises the same
interruption unchanged. -/
theorem move_interrupt_stops_both (size : SlitSize) (moved_cb : Option String)
    (timeout : Option ℚ) (env : MoveEnv) (e : String)
    (h : env.interrupt = some e) :
    (Slits.move size true moved_cb timeout env).actions
      = (Slits.move size false moved_cb timeout env).actions
        ++ [Action.xstop, Action.ystop] ∧
    (Slits.move size true moved_cb timeout env).outcome
      = MoveOutcome.raised e := by
  cases size <;> cases moved_cb <;> simp [Slits.move, h]

/-- Witness for `move_interrupt_stops_both`: a concrete interrupted blocking
move stops both axes and re-raises the interrupt. -/
theorem move_interrupt_stops_both_witness :
    (Slits.move (.pair 1 2) true none none
        ⟨fun _ _ => ⟨0, true, ""⟩, fun _ _ => ⟨0, true, ""⟩,
         some "KeyboardInterrupt"⟩).actions
      = (Slits.move (.pair 1 2) false none none
          ⟨fun _ _ => ⟨0, true, ""⟩, fun _ _ => ⟨0, true, ""⟩,
           some "KeyboardInterrupt"⟩).actions
        ++ [Action.xstop, Action.ystop] ∧
    (Slits.move (.pair 1 2) true none none
        ⟨fun _ _ => ⟨0, true, ""⟩, fun _ _ => ⟨0, true, ""⟩,
         some "KeyboardInterrupt"⟩).outcome
      = MoveOutcome.raised "KeyboardInterrupt" :=
  move_interrupt_stops_both (.pair 1 2) none none
    ⟨fun _ _ => ⟨0, true, ""⟩, fun _ _ => ⟨0, true, ""⟩,
     some "KeyboardInterrupt"⟩ "KeyboardInterrupt" rfl

/-- C5: `Slits.move(x)` with a scalar `x` is the same call as
`Slits.move((x, x))`: identical actions (the same two per-axis moves) and
identical result, for every wait flag, callback, timeout and environment. -/
theorem move_scalar_square (x : ℚ) (wait : Bool) (moved_cb : Option String)
    (timeout : Option ℚ) (env : MoveEnv) :
    Slits.move (.scalar x) wait moved_cb timeout env
      = Slits.move (.pair x x) wait moved_cb timeout env := rfl

/-- C6 counterexample: `Slits.remove` with the explicitly supplied size
`0.0` does not delegate to `move` with that size — with nominal aperture
`(5, 5)` it issues a different call than `move(0.0)` would. -/
theorem remove_supplied_size_counterexample :
    Slits.remove (5, 5) (some (.scalar 0)) false none none quietEnv
      ≠ Slits.move (.scalar 0) false none none quietEnv := by
  decide

/-- C6 amended: `Slits.remove` delegates to `Slits.move`, forwarding the
same wait, callback and timeout arguments, using the supplied size when it
is truthy (a nonzero scalar or any tuple) and `nominal_aperture` otherwise;
in particular `remove()` with no size argument issues exactly the move to
`nominal_aperture`. -/
theorem remove_delegates (nominal : ℚ × ℚ) (size : Option SlitSize)
    (wait : Bool) (moved_cb : Option String) (timeout : Option ℚ)
    (env : MoveEnv) :
    Slits.remove nominal size wait moved_cb timeout env
      = Slits.move
          (match size with
           | some sz =>
              if sizeTruthy (some sz) then sz else .pair nominal.1 nominal.2
           | none => .pair nominal.1 nominal.2)
          wait moved_cb timeout env ∧
    Slits.remove nominal none wait moved_cb timeout env
      = Slits.move (.pair nominal.1 nominal.2) wait moved_cb timeout env := by
  constructor
  · cases size with
    | none => simp [Slits.remove, sizeTruthy]
    | some sz =>
      cases sz with
      | scalar x =>
        by_cases hx : x = 0 <;> simp [Slits.remove, sizeTruthy, hx]
      | pair pw ph => simp [Slits.remove, sizeTruthy]
  · simp [Slits.remove, sizeTruthy]

/-- C9: `Slits.remove` called with the explicitly supplied but falsy size
`0` (`0.0`) moves to `nominal_aperture` instead, because the default
substitution tests truthiness of `size`, not whether it was supplied. -/
theorem remove_zero_size_uses_nominal (nominal : ℚ × ℚ) (wait : Bool)
    (moved_cb : Option String) (timeout : Option ℚ) (env : MoveEnv) :
    Slits.remove nominal (some (.scalar 0)) wait moved_cb timeout env
      = Slits.move (.pair nominal.1 nominal.2) wait moved_cb timeout env := by
  simp [Slits.remove, sizeTruthy]

/-- Once `_has_subscribed` is set, further `subscribe` calls only append to
the registered callbacks; the low-level listener lists never change. -/
theorem subscribe_foldl_after_flag (cbs : List ℕ) (st : SubState)
    (hflag : st.has_subscribed = true) :
    (cbs.foldl Slits.subscribe st).has_subscribed = true ∧
    (cbs.foldl Slits.subscribe st).xwidth_listeners = st.xwidth_listeners ∧
    (cbs.foldl Slits.subscribe st).ywidth_listeners = st.ywidth_listeners ∧
    (cbs.foldl Slits.subscribe st).callbacks = st.callbacks ++ cbs := by
  induction cbs generalizing st with
  | nil => simp [hflag]
  | cons c rest ih =>
    have hstep : Slits.subscribe st c = { st with callbacks := st.callbacks ++ [c] } := by
      simp [Slits.subscribe, hflag]
    have := ih { st with callbacks := st.callbacks ++ [c] } hflag
    simpa [hstep] using this

/-- C7: for every nonempty sequence of `subscribe` calls starting from the
freshly initialised state, the low-level `_aperture_changed` listener is
attached to each width readback exactly once (by the first call, with
`run=False` and the flag set); every call's callback is registered, and a
subsequent change of either width readback fires each registered callback
exactly once. -/
theorem subscribe_attaches_once (cbs : List ℕ) (hne : cbs ≠ []) :
    (cbs.foldl Slits.subscribe initSubState).has_subscribed = true ∧
    (cbs.foldl Slits.subscribe initSubState).xwidth_listeners = [false] ∧
    (cbs.foldl Slits.subscribe initSubState).ywidth_listeners = [false] ∧
    (cbs.foldl Slits.subscribe initSubState).callbacks = cbs ∧
    xwidthChangeFires (cbs.foldl Slits.subscribe initSubState) = cbs ∧
    ywidthChangeFires (cbs.foldl Slits.subscribe initSubState) = cbs := by
  match cbs, hne with
  | c :: rest, _ =>
    have hfirst : Slits.subscribe initSubState c
        = { has_subscribed := true, xwidth_listeners := [false],
            ywidth_listeners := [false], callbacks := [c] } := rfl
    have h := subscribe_foldl_after_flag rest
        { has_subscribed := true, xwidth_listeners := [false],
          ywidth_listeners := [false], callbacks := [c] } rfl
    obtain ⟨h1, h2, h3, h4⟩ := h
    refine ⟨?_, ?_, ?_, ?_, ?_, ?_⟩ <;>
      simp [List.foldl_cons, hfirst, h1, h2, h3, h4,
            xwidthChangeFires, ywidthChangeFires, aperture_changed]

/-- Witness for `subscribe_attaches_once` with two distinct callbacks. -/
theorem subscribe_attaches_once_witness :
    (([7, 8] : List ℕ).foldl Slits.subscribe initSubState).has_subscribed = true ∧
    (([7, 8] : List ℕ).foldl Slits.subscribe initSubState).xwidth_listeners = [false] ∧
    (([7, 8] : List ℕ).foldl Slits.subscribe initSubState).ywidth_listeners = [false] ∧
    (([7, 8] : List ℕ).foldl Slits.subscribe initSubState).callbacks = [7, 8] ∧
    xwidthChangeFires (([7, 8] : List ℕ).foldl Slits.subscribe initSubState) = [7, 8] ∧
    ywidthChangeFires (([7, 8] : List ℕ).foldl Slits.subscribe initSubState) = [7, 8] :=
  subscribe_attaches_once [7, 8] (by simp)

/-- C8: for each axis-kind tag, the setpoint PV is built from the first 4
characters of the tag (short form) suffixed `_REQ`, and the readback PV is
built from the full tag prefixed `ACTUAL_`. -/
theorem pv_naming (pfx : String) :
    (setpointPV pfx "XWIDTH" = pfx ++ ":XWID_REQ" ∧
     readbackPV pfx "XWIDTH" = pfx ++ ":ACTUAL_XWIDTH") ∧
    (setpointPV pfx "YWIDTH" = pfx ++ ":YWID_REQ" ∧
     readbackPV pfx "YWIDTH" = pfx ++ ":ACTUAL_YWIDTH") ∧
    (setpointPV pfx "XCENTER" = pfx ++ ":XCEN_REQ" ∧
     readbackPV pfx "XCENTER" = pfx ++ ":ACTUAL_XCENTER") ∧
    (setpointPV pfx "YCENTER" = pfx ++ ":YCEN_REQ" ∧
     readbackPV pfx "YCENTER" = pfx ++ ":ACTUAL_YCENTER") ∧
    (∀ tag : String,
      setpointPV pfx tag = pfx ++ ":" ++ tag.take 4 ++ "_REQ" ∧
      readbackPV pfx tag = pfx ++ ":ACTUAL_" ++ tag) := by
  refine ⟨⟨?_, ?_⟩, ⟨?_, ?_⟩, ⟨?_, ?_⟩, ⟨?_, ?_⟩, fun tag => ⟨rfl, rfl⟩⟩ <;>
    · simp only [setpointPV, readbackPV, String.append_assoc]
      congr 1

end PcdsSlits
